import Mathlib

/-!
Shallow embedding of `goldenverba/verba_manager.py` (class `VerbaManager`).

The repository modules that `verba_manager.py` imports (the reader, chunking,
embedding managers, the schema generation module and the weaviate client) are
part of this repository or its external collaborators but are not available
under `src/`; where a claim depends on them they are modelled from the spec,
with a doc comment starting `Modelled from the spec:`.  Python mutation of
`self` is rendered as explicit state passing: a method that mutates the
manager returns the new manager next to its result.
-/

/-- Modelled from the spec: a Chunk is a bounded span of a Document together
with its sequence index and an optional vector attached by the embed stage. -/
structure Chunk where
  text : String
  chunk_id : Nat
  vector : Option (List Int)
deriving DecidableEq

/-- Modelled from the spec: a Document carries name, source type tag, origin
link, raw content and an ordered sequence of Chunks. -/
structure Document where
  doc_name : String
  doc_type : String
  doc_link : String
  text : String
  chunks : List Chunk
deriving DecidableEq

/-- Modelled from the spec: an object persisted in the external store, living
in one Storage Class, with a store assigned id and scalar properties. -/
structure StoreRecord where
  id : String
  className : String
  props : List (String × String)
deriving DecidableEq

/-- Modelled from the spec: the store connection state visible to the manager,
namely the set of existing Storage Classes and the persisted objects. -/
structure Client where
  classes : List String
  db : List StoreRecord
deriving DecidableEq

/-- Modelled from the spec: a bounded query by class, naming the requested
scalar properties, the additional fields and the page limit. -/
structure Query where
  class_name : String
  properties : List String
  additional : List String
  limit : Nat
deriving DecidableEq

/-- Modelled from the spec: the store runs a bounded query by returning the
objects of the named class, truncated to the page limit.  The requested
property names select fields of the returned records; the records themselves
are returned whole here. -/
def runQuery (db : List StoreRecord) (q : Query) : List StoreRecord :=
  (db.filter (fun r => r.className == q.class_name)).take q.limit

/-- Modelled from the spec: `strip_non_letters` of the schema generation
module retains only ASCII letters from the identifier, preserving case and
order. -/
def strip_non_letters (s : String) : String :=
  String.mk (s.data.filter (fun c => decide (('A' ≤ c ∧ c ≤ 'Z') ∨ ('a' ≤ c ∧ c ≤ 'z'))))

/-- Modelled from the spec: the pure class naming rule, literal prefix
`Document_` followed by the sanitized vectorizer identifier. -/
def classNameFor (vectorizerId : String) : String :=
  "Document_" ++ strip_non_letters vectorizerId

/-- Modelled from the spec: a Reader strategy converts raw inputs (bytes,
inline contents, paths, file names and a document type) into Documents. -/
structure Reader where
  load : List String → List String → List String → List String → String → List Document

/-- Modelled from the spec: a Chunker strategy splits the Documents into
Chunks given the chunk units and overlap. -/
structure Chunker where
  chunk : List Document → Nat → Nat → List Document

/-- Modelled from the spec: outcome of the embed stage on a batch, namely the
document list after the in place mutation, the objects persisted through the
store while embedding, and the overall success report. -/
structure EmbedOutcome where
  docs : List Document
  writes : List StoreRecord
  ok : Bool

/-- Modelled from the spec: an Embedder strategy names its vectorizer and
embeds plus persists a batch of Documents. -/
structure Embedder where
  vectorizer : String
  embed_fn : List Document → EmbedOutcome

/-- Modelled from the spec: the Reader registry holds named readers and the
currently selected one. -/
structure ReaderManager where
  readers : List (String × Reader)
  selected_reader : Reader

/-- Modelled from the spec: `set_reader` succeeds iff the name is registered;
on success the found implementation becomes the selected one, on failure the
previous selection is retained unchanged. -/
def ReaderManager.set_reader (rm : ReaderManager) (reader : String) : Bool × ReaderManager :=
  match rm.readers.find? (fun p => p.fst == reader) with
  | some q => (true, { rm with selected_reader := q.snd })
  | none => (false, rm)

/-- Modelled from the spec: `load` delegates to the selected reader. -/
def ReaderManager.load (rm : ReaderManager) (bytes contents paths fileNames : List String)
    (document_type : String) : List Document :=
  rm.selected_reader.load bytes contents paths fileNames document_type

/-- Modelled from the spec: the Chunker registry. -/
structure ChunkerManager where
  chunkers : List (String × Chunker)
  selected_chunker : Chunker

/-- Modelled from the spec: `set_chunker`, same contract as `set_reader`. -/
def ChunkerManager.set_chunker (cm : ChunkerManager) (chunker : String) : Bool × ChunkerManager :=
  match cm.chunkers.find? (fun p => p.fst == chunker) with
  | some q => (true, { cm with selected_chunker := q.snd })
  | none => (false, cm)

/-- Modelled from the spec: `chunk` delegates to the selected chunker. -/
def ChunkerManager.chunk (cm : ChunkerManager) (documents : List Document)
    (units overlap : Nat) : List Document :=
  cm.selected_chunker.chunk documents units overlap

/-- Modelled from the spec: the Embedder registry. -/
structure EmbeddingManager where
  embedders : List (String × Embedder)
  selected_embedder : Embedder

/-- Modelled from the spec: `set_embedder`, same contract as `set_reader`. -/
def EmbeddingManager.set_embedder (em : EmbeddingManager) (embedder : String) : Bool × EmbeddingManager :=
  match em.embedders.find? (fun p => p.fst == embedder) with
  | some q => (true, { em with selected_embedder := q.snd })
  | none => (false, em)

/-- Modelled from the spec: `embed` delegates to the selected embedder, which
persists through the client while embedding. -/
def EmbeddingManager.embed (em : EmbeddingManager) (documents : List Document) : EmbedOutcome :=
  em.selected_embedder.embed_fn documents

/-- State of `VerbaManager` (its attributes in `__init__`).  The capability
maps are association lists mirroring the Python dictionaries. -/
structure VerbaManager where
  reader_manager : ReaderManager
  chunker_manager : ChunkerManager
  embedder_manager : EmbeddingManager
  environment_variables : List (String × Bool)
  installed_libraries : List (String × Bool)
  weaviate_type : String
  client : Client

/-- `VerbaManager.import_data` (verba_manager.py lines 44 to 66): load the raw
inputs through the reader manager, chunk the loaded documents, embed the
chunked documents; on a truthy embed report return the modified documents,
otherwise return None.  The embed stage mutates the document list in place and
persists while running, so the model returns the mutated list and extends the
store by the writes in either case. -/
def VerbaManager.import_data (m : VerbaManager) (bytes contents paths fileNames : List String)
    (document_type : String) (units overlap : Nat) : Option (List Document) × VerbaManager :=
  let loaded_documents := m.reader_manager.load bytes contents paths fileNames document_type
  let modified_documents := m.chunker_manager.chunk loaded_documents units overlap
  let outcome := m.embedder_manager.embed modified_documents
  let m2 := { m with client := { m.client with db := m.client.db ++ outcome.writes } }
  if outcome.ok then (some outcome.docs, m2) else (none, m2)

/-- `VerbaManager.reader_set_reader` (line 68): delegate to the reader
manager. -/
def VerbaManager.reader_set_reader (m : VerbaManager) (reader : String) : Bool × VerbaManager :=
  let r := m.reader_manager.set_reader reader
  (r.fst, { m with reader_manager := r.snd })

/-- `VerbaManager.chunker_set_chunker` (line 74): delegate to the chunker
manager. -/
def VerbaManager.chunker_set_chunker (m : VerbaManager) (chunker : String) : Bool × VerbaManager :=
  let r := m.chunker_manager.set_chunker chunker
  (r.fst, { m with chunker_manager := r.snd })

/-- `VerbaManager.embedder_set_embedder` (line 80): delegate to the embedding
manager. -/
def VerbaManager.embedder_set_embedder (m : VerbaManager) (embedder : String) : Bool × VerbaManager :=
  let r := m.embedder_manager.set_embedder embedder
  (r.fst, { m with embedder_manager := r.snd })

/-- Class name computed at the call site inside `retrieve_all_documents`
(lines 198 to 200): `"Document_" + strip_non_letters(selected vectorizer)`. -/
def VerbaManager.retrieve_all_documents_class_name (m : VerbaManager) : String :=
  "Document_" ++ strip_non_letters m.embedder_manager.selected_embedder.vectorizer

/-- Class name computed at the call site inside `retrieve_document`
(lines 221 to 223): the same expression, re-derived there. -/
def VerbaManager.retrieve_document_class_name (m : VerbaManager) : String :=
  "Document_" ++ strip_non_letters m.embedder_manager.selected_embedder.vectorizer

/-- Query built by `retrieve_all_documents` (lines 204 to 212): the class of
the selected embedder, the properties doc_name, doc_type, doc_link, the
additional field id, and limit 10000. -/
def VerbaManager.retrieve_all_documents_query (m : VerbaManager) : Query :=
  { class_name := m.retrieve_all_documents_class_name
    properties := ["doc_name", "doc_type", "doc_link"]
    additional := ["id"]
    limit := 10000 }

/-- `VerbaManager.retrieve_all_documents` (lines 193 to 214): run the bounded
query against the store.  The method performs no writes. -/
def VerbaManager.retrieve_all_documents (m : VerbaManager) : List StoreRecord × VerbaManager :=
  (runQuery m.client.db m.retrieve_all_documents_query, m)

/-- `VerbaManager.retrieve_document` (lines 216 to 229): id based lookup in
the class of the selected embedder.  The method performs no writes. -/
def VerbaManager.retrieve_document (m : VerbaManager) (doc_id : String) :
    Option StoreRecord × VerbaManager :=
  (m.client.db.find? (fun r => r.id == doc_id && r.className == m.retrieve_document_class_name), m)

/-- `VerbaManager.get_schemas` (lines 173 to 191): for every existing class,
count its objects through a query with limit 100000.  The method performs no
writes. -/
def VerbaManager.get_schemas (m : VerbaManager) : List (String × Nat) × VerbaManager :=
  (m.client.classes.map
    (fun c => (c, ((m.client.db.filter (fun r => r.className == c)).take 100000).length)), m)

/-- `VerbaManager.reset` (lines 231 to 232): `client.schema.delete_all()`
deletes every Storage Class together with its objects. -/
def VerbaManager.reset (m : VerbaManager) : VerbaManager :=
  { m with client := { classes := [], db := [] } }

/-- Failure mode of `setup_client`: evaluating the unbound local name `openai`
in the embedded branch raises when the import at the top of the method had
raised. -/
inductive SetupErr where
  | nameError
deriving DecidableEq

/-- Connection target decided by `setup_client`: either the remote cluster
(url, api key credential, collected additional headers) or the local embedded
instance (headers, persistence data path, binary path).  In the embedded
branch the header value is the module attribute `openai.api_key`, which is
None when no key was set. -/
inductive ClientTarget where
  | remote (url : String) (api_key : String) (additional_headers : List (String × String))
  | embedded (additional_headers : List (String × Option String))
      (persistence_data_path : String) (binary_path : String)
deriving DecidableEq

/-- Attributes of the manager that `setup_client` writes on `self` while
running (entries of `environment_variables`, and `weaviate_type`). -/
structure SetupState where
  environment_variables : List (String × Bool)
  weaviate_type : String
deriving DecidableEq

/-- Dictionary assignment `d[k] = v` on an association list. -/
def setFlag (flags : List (String × Bool)) (k : String) (v : Bool) : List (String × Bool) :=
  if flags.any (fun p => p.fst == k) then
    flags.map (fun p => if p.fst == k then (k, v) else p)
  else
    flags ++ [(k, v)]

/-- Additional header collected by the openai probe at the top of
`setup_client` (lines 96 to 109): present exactly when the import succeeded
and the key is non empty. -/
def openai_additional_header (openai_importable : Bool) (openai_key : String) :
    List (String × String) :=
  if openai_importable && !(openai_key == "") then [("X-OpenAI-Api-Key", openai_key)] else []

/-- Value of the module attribute `openai.api_key` after the probe: it stays
None unless the import succeeded and a non empty key was assigned. -/
def openai_api_key_value (openai_importable : Bool) (openai_key : String) : Option String :=
  if openai_importable && !(openai_key == "") then some openai_key else none

/-- State of the local name `openai` after the probe: `none` when the import
raised (name unbound), otherwise the module with its `api_key` attribute. -/
def openai_module_state (openai_importable : Bool) (openai_key : String) :
    Option (Option String) :=
  if openai_importable then some (openai_api_key_value openai_importable openai_key)
  else none

/-- `VerbaManager.setup_client` (lines 86 to 147).  Inputs: whether the
openai import succeeds, and the environment as a total map (os.environ.get
with default empty string).  The openai probe fills headers and the
OPENAI_API_KEY flag; then, if VERBA_URL is non empty, the remote cluster
target is built with the api key credential and the collected headers,
otherwise the embedded branch evaluates `openai.api_key`, which raises when
the name is unbound, and on success builds the embedded target with the fixed
on disk paths. -/
def setup_client (openai_importable : Bool) (env : String → String) :
    Except SetupErr (ClientTarget × SetupState) :=
  let openai_key := env "OPENAI_API_KEY"
  let additional_header := openai_additional_header openai_importable openai_key
  let env1 := setFlag [] "OPENAI_API_KEY" (openai_importable && !(openai_key == ""))
  let weaviate_url := env "VERBA_URL"
  if weaviate_url ≠ "" then
    let weaviate_key := env "VERBA_API_KEY"
    Except.ok (ClientTarget.remote weaviate_url weaviate_key additional_header,
      { environment_variables := setFlag env1 "VERBA_URL" true
        weaviate_type := "Weaviate Cluster" })
  else
    match openai_module_state openai_importable openai_key with
    | none => Except.error SetupErr.nameError
    | some api_key =>
        Except.ok (ClientTarget.embedded [("X-OpenAI-Api-Key", api_key)]
            "./.verba/local/share/" "./.verba/cache/weaviate-embedded",
          { environment_variables := env1
            weaviate_type := "Weaviate Embedded" })

/-- Arguments of one `init_schemas` call made by `__init__` together with the
result it reported.  Modelled from the spec: the third positional argument of
`init_schemas(client, identifier, False, True)` is the force recreate flag. -/
structure SchemaCall where
  vectorizer : String
  force : Bool
  check : Bool
  ok : Bool
deriving DecidableEq

/-- Schema phase of `__init__` (lines 37 to 42): iterate the closed set
VECTORIZERS and then EMBEDDINGS, calling `init_schemas(client, v, False,
True)` for each.  Modelled from the spec: `init_schemas` reports a result
instead of raising, so one failure never stops the loop; the phase records
every call made and accumulates the identifiers whose call failed. -/
def init_schemas_phase (init_schemas : String → Bool → Bool → Bool)
    (vectorizers embeddings : List String) : List SchemaCall × List String :=
  let calls := (vectorizers ++ embeddings).map
    (fun v => { vectorizer := v, force := false, check := true, ok := init_schemas v false true })
  (calls, (calls.filter (fun c => !c.ok)).map (fun c => c.vectorizer))

/-- `VerbaManager.__init__` (lines 25 to 42), in the exception monad: the
construction consumes the outcome of `setup_client` plus the store connection
attempt; a raised connection failure propagates out of `__init__`, so nothing
after line 32 runs.  On success the capability probes fill the two maps and
the schema phase runs; the construction returns the manager together with the
schema calls made. -/
def VerbaManager.mk_manager (setup_result : Except SetupErr (Client × SetupState))
    (spacy_importable : Bool) (env : String → String)
    (init_schemas : String → Bool → Bool → Bool) (vectorizers embeddings : List String)
    (rm : ReaderManager) (cm : ChunkerManager) (em : EmbeddingManager) :
    Except SetupErr VerbaManager × List SchemaCall :=
  match setup_result with
  | Except.error e => (Except.error e, [])
  | Except.ok (client, st) =>
      let installed := setFlag [] "spacy" spacy_importable
      let envvars := setFlag st.environment_variables "OPENAI_API_KEY" (!(env "OPENAI_API_KEY" == ""))
      (Except.ok
        { reader_manager := rm
          chunker_manager := cm
          embedder_manager := em
          environment_variables := envvars
          installed_libraries := installed
          weaviate_type := st.weaviate_type
          client := client },
        (init_schemas_phase init_schemas vectorizers embeddings).fst)

/-- Concrete document used by the witnesses. -/
def docA : Document :=
  { doc_name := "a", doc_type := "Documentation", doc_link := "path/a",
    text := "hello world", chunks := [] }

/-- Concrete reader: loads one document for any inputs. -/
def readerA : Reader := { load := fun _ _ _ _ _ => [docA] }

/-- Concrete chunker: gives each document a single chunk holding its text. -/
def chunkerA : Chunker :=
  { chunk := fun ds _ _ =>
      ds.map (fun d => { d with chunks := [{ text := d.text, chunk_id := 0, vector := none }] }) }

/-- Concrete persisted record used by the witnesses. -/
def recA : StoreRecord :=
  { id := "uuid-0", className := "Document_textvecopenai", props := [("doc_name", "a")] }

/-- Concrete embedder that succeeds, attaching a vector to every chunk and
persisting one record. -/
def embedderA : Embedder :=
  { vectorizer := "text2vec-openai"
    embed_fn := fun ds =>
      { docs := ds.map (fun d =>
          { d with chunks := d.chunks.map (fun c => { c with vector := some [1, 2] }) })
        writes := [recA]
        ok := true } }

/-- Concrete embedder that reports failure. -/
def embedderB : Embedder :=
  { vectorizer := "text2vec-openai"
    embed_fn := fun ds => { docs := ds, writes := [], ok := false } }

/-- Concrete manager whose embed stage succeeds. -/
def M0 : VerbaManager :=
  { reader_manager := { readers := [("SimpleReader", readerA)], selected_reader := readerA }
    chunker_manager := { chunkers := [("WordChunker", chunkerA)], selected_chunker := chunkerA }
    embedder_manager := { embedders := [("ADAEmbedder", embedderA)], selected_embedder := embedderA }
    environment_variables := [("OPENAI_API_KEY", true)]
    installed_libraries := [("spacy", true)]
    weaviate_type := "Weaviate Embedded"
    client := { classes := ["Document_textvecopenai"], db := [recA] } }

/-- Concrete manager whose embed stage reports failure. -/
def M1 : VerbaManager :=
  { M0 with
    embedder_manager := { embedders := [("ADAEmbedder", embedderB)], selected_embedder := embedderB } }

/-- Concrete environment with the remote endpoint configured. -/
def envRemote : String → String := fun s =>
  if s = "VERBA_URL" then "http://weaviate.example" else
  if s = "VERBA_API_KEY" then "key1" else
  if s = "OPENAI_API_KEY" then "sk" else ""

/-- C1: `import_data` runs the stages strictly in sequence — the active
Reader loads the inputs, the active Chunker chunks exactly the loaded
Documents, the active Embedder embeds and persists exactly the chunked
Documents — and if the embed stage reports overall success, `import_data`
returns the fully processed Documents. -/
theorem C1_import_data_sequential_success (m : VerbaManager)
    (bytes contents paths fileNames : List String) (document_type : String)
    (units overlap : Nat)
    (hok : (m.embedder_manager.embed
        (m.chunker_manager.chunk
          (m.reader_manager.load bytes contents paths fileNames document_type)
          units overlap)).ok = true) :
    (m.import_data bytes contents paths fileNames document_type units overlap).fst
      = some (m.embedder_manager.embed
          (m.chunker_manager.chunk
            (m.reader_manager.load bytes contents paths fileNames document_type)
            units overlap)).docs := by
  simp [VerbaManager.import_data, hok]

/-- Witness for C1 at the concrete manager M0. -/
theorem C1_import_data_sequential_success_witness :
    (M0.embedder_manager.embed
        (M0.chunker_manager.chunk
          (M0.reader_manager.load [] [] ["path/a"] ["a"] "Documentation") 100 50)).ok = true
    ∧ (M0.import_data [] [] ["path/a"] ["a"] "Documentation" 100 50).fst
      = some (M0.embedder_manager.embed
          (M0.chunker_manager.chunk
            (M0.reader_manager.load [] [] ["path/a"] ["a"] "Documentation") 100 50)).docs :=
  ⟨rfl, C1_import_data_sequential_success M0 [] [] ["path/a"] ["a"] "Documentation" 100 50 rfl⟩

/-- C2: when the embed stage reports failure, `import_data` returns the error
value None — not the document list and not a partial subset of it. -/
theorem C2_import_data_failure_no_partial (m : VerbaManager)
    (bytes contents paths fileNames : List String) (document_type : String)
    (units overlap : Nat)
    (hfail : (m.embedder_manager.embed
        (m.chunker_manager.chunk
          (m.reader_manager.load bytes contents paths fileNames document_type)
          units overlap)).ok = false) :
    (m.import_data bytes contents paths fileNames document_type units overlap).fst = none := by
  simp [VerbaManager.import_data, hfail]

/-- Witness for C2 at the concrete manager M1, whose embed stage fails. -/
theorem C2_import_data_failure_no_partial_witness :
    (M1.embedder_manager.embed
        (M1.chunker_manager.chunk
          (M1.reader_manager.load [] [] ["path/a"] ["a"] "Documentation") 100 50)).ok = false
    ∧ (M1.import_data [] [] ["path/a"] ["a"] "Documentation" 100 50).fst = none :=
  ⟨rfl, C2_import_data_failure_no_partial M1 [] [] ["path/a"] ["a"] "Documentation" 100 50 rfl⟩

/-- C3: every component naming a Storage Class uses the same deterministic
rule `Document_` followed by the sanitized vectorizer identifier (only ASCII
letters retained, case and order preserved); `retrieve_all_documents` and
`retrieve_document` compute the same class name for the same selected
embedder.  The sanitized character list is a sublist of the identifier, so
order and case are preserved. -/
theorem C3_class_naming_rule (m : VerbaManager) :
    m.retrieve_all_documents_class_name
        = classNameFor m.embedder_manager.selected_embedder.vectorizer
    ∧ m.retrieve_document_class_name = m.retrieve_all_documents_class_name
    ∧ classNameFor m.embedder_manager.selected_embedder.vectorizer
        = "Document_" ++ String.mk (m.embedder_manager.selected_embedder.vectorizer.data.filter
            (fun c => decide (('A' ≤ c ∧ c ≤ 'Z') ∨ ('a' ≤ c ∧ c ≤ 'z'))))
    ∧ (strip_non_letters m.embedder_manager.selected_embedder.vectorizer).data.Sublist
        m.embedder_manager.selected_embedder.vectorizer.data :=
  ⟨rfl, rfl, rfl, List.filter_sublist _⟩

/-- Helper for C4: filtering after a map is mapping after filtering the
composed predicate. -/
theorem map_filter_comm {α β : Type} (f : α → β) (p : β → Bool) (l : List α) :
    (l.map f).filter p = (l.filter (fun a => p (f a))).map f :=
  List.filter_map ..

/-- C4: the schema phase of construction invokes `init_schemas` once for
every identifier of VECTORIZERS and once for every identifier of EMBEDDINGS,
in order, with the force recreate flag off, whatever each call reports —
and it accumulates exactly the identifiers whose call failed. -/
theorem C4_schema_phase_total (init_schemas : String → Bool → Bool → Bool)
    (vectorizers embeddings : List String) :
    (init_schemas_phase init_schemas vectorizers embeddings).fst.map
        (fun c => (c.vectorizer, c.force, c.check))
      = (vectorizers ++ embeddings).map (fun v => (v, false, true))
    ∧ (init_schemas_phase init_schemas vectorizers embeddings).snd
      = (vectorizers ++ embeddings).filter (fun v => !(init_schemas v false true)) := by
  constructor
  · simp only [init_schemas_phase, List.map_map]
    rfl
  · simp only [init_schemas_phase, map_filter_comm, List.map_map]
    rw [show ((fun c : SchemaCall => c.vectorizer) ∘ fun v =>
        SchemaCall.mk v false true (init_schemas v false true)) = id from rfl]
    simp

/-- C5: a connection setup failure propagates out of manager construction as
the single reported error; no schema setup call is made and no manager (hence
no later pipeline operation) is produced. -/
theorem C5_connection_failure_fatal (e : SetupErr) (spacy_importable : Bool)
    (env : String → String) (init_schemas : String → Bool → Bool → Bool)
    (vectorizers embeddings : List String)
    (rm : ReaderManager) (cm : ChunkerManager) (em : EmbeddingManager) :
    VerbaManager.mk_manager (Except.error e) spacy_importable env init_schemas
        vectorizers embeddings rm cm em = (Except.error e, []) := rfl

/-- C6 counterexample: with VERBA_URL unset and the openai import failed,
`setup_client` raises instead of starting the embedded instance, so the
otherwise branch does not always return an embedded client. -/
theorem C6_counterexample_embedded_needs_openai :
    setup_client false (fun _ => "") = Except.error SetupErr.nameError
    ∧ (setup_client false (fun _ => "")).toOption = none
    ∧ (fun (_ : String) => "") "VERBA_URL" = "" :=
  ⟨rfl, rfl, rfl⟩

/-- C6 amended: `setup_client` decides the connection target once from
configuration presence — a non empty VERBA_URL yields the remote cluster with
the api key credential and the collected headers; otherwise, provided the
openai import succeeded, it yields the local embedded instance with the fixed
on disk data path and binary path.  The returned target is the one time
decision and is never revisited. -/
theorem C6_connection_target_decision (openai_importable : Bool) (env : String → String) :
    (env "VERBA_URL" ≠ "" →
      setup_client openai_importable env
        = Except.ok (ClientTarget.remote (env "VERBA_URL") (env "VERBA_API_KEY")
            (openai_additional_header openai_importable (env "OPENAI_API_KEY")),
          { environment_variables := setFlag (setFlag [] "OPENAI_API_KEY"
              (openai_importable && !(env "OPENAI_API_KEY" == ""))) "VERBA_URL" true
            weaviate_type := "Weaviate Cluster" }))
    ∧ (env "VERBA_URL" = "" → openai_importable = true →
      setup_client openai_importable env
        = Except.ok (ClientTarget.embedded
            [("X-OpenAI-Api-Key", openai_api_key_value openai_importable (env "OPENAI_API_KEY"))]
            "./.verba/local/share/" "./.verba/cache/weaviate-embedded",
          { environment_variables := setFlag [] "OPENAI_API_KEY"
              (openai_importable && !(env "OPENAI_API_KEY" == ""))
            weaviate_type := "Weaviate Embedded" })) := by
  constructor
  · intro h
    simp [setup_client, h]
  · intro h h2
    subst h2
    simp [setup_client, openai_module_state, h]

/-- Witness for C6 amended: the remote decision under envRemote and the
embedded decision under the empty environment with openai importable. -/
theorem C6_connection_target_decision_witness :
    setup_client true envRemote
      = Except.ok (ClientTarget.remote (envRemote "VERBA_URL") (envRemote "VERBA_API_KEY")
          (openai_additional_header true (envRemote "OPENAI_API_KEY")),
        { environment_variables := setFlag (setFlag [] "OPENAI_API_KEY"
            (true && !(envRemote "OPENAI_API_KEY" == ""))) "VERBA_URL" true
          weaviate_type := "Weaviate Cluster" })
    ∧ setup_client true (fun _ => "")
      = Except.ok (ClientTarget.embedded
          [("X-OpenAI-Api-Key", openai_api_key_value true ((fun _ => "") "OPENAI_API_KEY"))]
          "./.verba/local/share/" "./.verba/cache/weaviate-embedded",
        { environment_variables := setFlag [] "OPENAI_API_KEY"
            (true && !((fun (_ : String) => "") "OPENAI_API_KEY" == ""))
          weaviate_type := "Weaviate Embedded" }) :=
  ⟨(C6_connection_target_decision true envRemote).1 (by decide),
   (C6_connection_target_decision true (fun _ => "")).2 rfl rfl⟩

/-- Helper for C7: a find? succeeds exactly when some element matches. -/
theorem find?_isSome_eq_any {α : Type} (l : List α) (p : α → Bool) :
    (l.find? p).isSome = l.any p := by
  induction l with
  | nil => rfl
  | cons a t ih => cases h : p a <;> simp [List.find?_cons, h, ih]

/-- Helper for C7: the reader registry contract. -/
theorem reader_select_spec (m : VerbaManager) (name : String) :
    (m.reader_set_reader name).fst = m.reader_manager.readers.any (fun p => p.fst == name)
    ∧ (m.reader_manager.readers.find? (fun p => p.fst == name) = none →
        m.reader_set_reader name = (false, m))
    ∧ (∀ q, m.reader_manager.readers.find? (fun p => p.fst == name) = some q →
        m.reader_set_reader name
          = (true, { m with reader_manager :=
              { m.reader_manager with selected_reader := q.snd } }))
    ∧ (m.reader_set_reader name).snd.chunker_manager = m.chunker_manager
    ∧ (m.reader_set_reader name).snd.embedder_manager = m.embedder_manager := by
  refine ⟨?_, ?_, ?_, ?_, ?_⟩
  · rw [← find?_isSome_eq_any]
    cases h : m.reader_manager.readers.find? (fun p => p.fst == name) <;>
      simp [VerbaManager.reader_set_reader, ReaderManager.set_reader, h]
  · intro h
    simp [VerbaManager.reader_set_reader, ReaderManager.set_reader, h]
  · intro q h
    simp [VerbaManager.reader_set_reader, ReaderManager.set_reader, h]
  · cases h : m.reader_manager.readers.find? (fun p => p.fst == name) <;>
      simp [VerbaManager.reader_set_reader, ReaderManager.set_reader, h]
  · cases h : m.reader_manager.readers.find? (fun p => p.fst == name) <;>
      simp [VerbaManager.reader_set_reader, ReaderManager.set_reader, h]

/-- Helper for C7: the chunker registry contract. -/
theorem chunker_select_spec (m : VerbaManager) (name : String) :
    (m.chunker_set_chunker name).fst = m.chunker_manager.chunkers.any (fun p => p.fst == name)
    ∧ (m.chunker_manager.chunkers.find? (fun p => p.fst == name) = none →
        m.chunker_set_chunker name = (false, m))
    ∧ (∀ q, m.chunker_manager.chunkers.find? (fun p => p.fst == name) = some q →
        m.chunker_set_chunker name
          = (true, { m with chunker_manager :=
              { m.chunker_manager with selected_chunker := q.snd } }))
    ∧ (m.chunker_set_chunker name).snd.reader_manager = m.reader_manager
    ∧ (m.chunker_set_chunker name).snd.embedder_manager = m.embedder_manager := by
  refine ⟨?_, ?_, ?_, ?_, ?_⟩
  · rw [← find?_isSome_eq_any]
    cases h : m.chunker_manager.chunkers.find? (fun p => p.fst == name) <;>
      simp [VerbaManager.chunker_set_chunker, ChunkerManager.set_chunker, h]
  · intro h
    simp [VerbaManager.chunker_set_chunker, ChunkerManager.set_chunker, h]
  · intro q h
    simp [VerbaManager.chunker_set_chunker, ChunkerManager.set_chunker, h]
  · cases h : m.chunker_manager.chunkers.find? (fun p => p.fst == name) <;>
      simp [VerbaManager.chunker_set_chunker, ChunkerManager.set_chunker, h]
  · cases h : m.chunker_manager.chunkers.find? (fun p => p.fst == name) <;>
      simp [VerbaManager.chunker_set_chunker, ChunkerManager.set_chunker, h]

/-- Helper for C7: the embedder registry contract. -/
theorem embedder_select_spec (m : VerbaManager) (name : String) :
    (m.embedder_set_embedder name).fst = m.embedder_manager.embedders.any (fun p => p.fst == name)
    ∧ (m.embedder_manager.embedders.find? (fun p => p.fst == name) = none →
        m.embedder_set_embedder name = (false, m))
    ∧ (∀ q, m.embedder_manager.embedders.find? (fun p => p.fst == name) = some q →
        m.embedder_set_embedder name
          = (true, { m with embedder_manager :=
              { m.embedder_manager with selected_embedder := q.snd } }))
    ∧ (m.embedder_set_embedder name).snd.reader_manager = m.reader_manager
    ∧ (m.embedder_set_embedder name).snd.chunker_manager = m.chunker_manager := by
  refine ⟨?_, ?_, ?_, ?_, ?_⟩
  · rw [← find?_isSome_eq_any]
    cases h : m.embedder_manager.embedders.find? (fun p => p.fst == name) <;>
      simp [VerbaManager.embedder_set_embedder, EmbeddingManager.set_embedder, h]
  · intro h
    simp [VerbaManager.embedder_set_embedder, EmbeddingManager.set_embedder, h]
  · intro q h
    simp [VerbaManager.embedder_set_embedder, EmbeddingManager.set_embedder, h]
  · cases h : m.embedder_manager.embedders.find? (fun p => p.fst == name) <;>
      simp [VerbaManager.embedder_set_embedder, EmbeddingManager.set_embedder, h]
  · cases h : m.embedder_manager.embedders.find? (fun p => p.fst == name) <;>
      simp [VerbaManager.embedder_set_embedder, EmbeddingManager.set_embedder, h]

/-- C7: for each registry, select returns true iff the name is registered; on
true the found implementation becomes the sole active one, on false the
previous selection (indeed the whole manager) is retained unchanged; and a
selection in one registry never affects the other two registries. -/
theorem C7_select_contract (m : VerbaManager) (name : String) :
    ((m.reader_set_reader name).fst = m.reader_manager.readers.any (fun p => p.fst == name)
      ∧ (m.reader_manager.readers.find? (fun p => p.fst == name) = none →
          m.reader_set_reader name = (false, m))
      ∧ (∀ q, m.reader_manager.readers.find? (fun p => p.fst == name) = some q →
          m.reader_set_reader name
            = (true, { m with reader_manager :=
                { m.reader_manager with selected_reader := q.snd } }))
      ∧ (m.reader_set_reader name).snd.chunker_manager = m.chunker_manager
      ∧ (m.reader_set_reader name).snd.embedder_manager = m.embedder_manager)
    ∧ ((m.chunker_set_chunker name).fst = m.chunker_manager.chunkers.any (fun p => p.fst == name)
      ∧ (m.chunker_manager.chunkers.find? (fun p => p.fst == name) = none →
          m.chunker_set_chunker name = (false, m))
      ∧ (∀ q, m.chunker_manager.chunkers.find? (fun p => p.fst == name) = some q →
          m.chunker_set_chunker name
            = (true, { m with chunker_manager :=
                { m.chunker_manager with selected_chunker := q.snd } }))
      ∧ (m.chunker_set_chunker name).snd.reader_manager = m.reader_manager
      ∧ (m.chunker_set_chunker name).snd.embedder_manager = m.embedder_manager)
    ∧ ((m.embedder_set_embedder name).fst = m.embedder_manager.embedders.any (fun p => p.fst == name)
      ∧ (m.embedder_manager.embedders.find? (fun p => p.fst == name) = none →
          m.embedder_set_embedder name = (false, m))
      ∧ (∀ q, m.embedder_manager.embedders.find? (fun p => p.fst == name) = some q →
          m.embedder_set_embedder name
            = (true, { m with embedder_manager :=
                { m.embedder_manager with selected_embedder := q.snd } }))
      ∧ (m.embedder_set_embedder name).snd.reader_manager = m.reader_manager
      ∧ (m.embedder_set_embedder name).snd.chunker_manager = m.chunker_manager) :=
  ⟨reader_select_spec m name, chunker_select_spec m name, embedder_select_spec m name⟩

/-- Witness for C7 at the concrete manager M0: an unregistered name leaves
the manager unchanged in each registry, and a registered name is accepted. -/
theorem C7_select_contract_witness :
    M0.reader_set_reader "nope" = (false, M0)
    ∧ M0.chunker_set_chunker "nope" = (false, M0)
    ∧ M0.embedder_set_embedder "nope" = (false, M0)
    ∧ (M0.reader_set_reader "SimpleReader").fst = true
    ∧ (M0.reader_set_reader "SimpleReader").snd.chunker_manager = M0.chunker_manager :=
  ⟨(C7_select_contract M0 "nope").1.2.1 rfl,
   (C7_select_contract M0 "nope").2.1.2.1 rfl,
   (C7_select_contract M0 "nope").2.2.2.1 rfl,
   rfl, rfl⟩

/-- C8: `retrieve_all_documents` queries only the Storage Class of the active
embedder, for exactly the doc_name, doc_type, doc_link properties plus the
record id, with the fixed page size 10000; the result never exceeds that
bound and every returned record belongs to that class. -/
theorem C8_retrieve_all_documents_bounded (m : VerbaManager) :
    m.retrieve_all_documents_query.class_name
        = classNameFor m.embedder_manager.selected_embedder.vectorizer
    ∧ m.retrieve_all_documents_query.properties = ["doc_name", "doc_type", "doc_link"]
    ∧ m.retrieve_all_documents_query.additional = ["id"]
    ∧ m.retrieve_all_documents_query.limit = 10000
    ∧ (m.retrieve_all_documents).fst.length ≤ 10000
    ∧ (m.retrieve_all_documents).fst.all
        (fun r => r.className == m.retrieve_all_documents_query.class_name) = true := by
  refine ⟨rfl, rfl, rfl, rfl, ?_, ?_⟩
  · simp only [VerbaManager.retrieve_all_documents, VerbaManager.retrieve_all_documents_query,
      runQuery, List.length_take]
    exact min_le_left _ _
  · rw [List.all_eq_true]
    intro r hr
    rw [show (m.retrieve_all_documents).fst
        = (m.client.db.filter
            (fun x => x.className == m.retrieve_all_documents_query.class_name)).take
          m.retrieve_all_documents_query.limit from rfl] at hr
    have hmem : r ∈ m.client.db.filter
        (fun x => x.className == m.retrieve_all_documents_query.class_name) :=
      List.take_subset _ _ hr
    exact (List.mem_filter.mp hmem).2

/-- C9: the capability and environment flag maps are never mutated by the
pipeline or retrieval operations: import_data, retrieve_all_documents,
retrieve_document, get_schemas and reset all leave installed_libraries and
environment_variables identical. -/
theorem C9_capability_flags_immutable (m : VerbaManager)
    (bytes contents paths fileNames : List String) (document_type : String)
    (units overlap : Nat) (doc_id : String) :
    ((m.import_data bytes contents paths fileNames document_type units overlap).snd.installed_libraries
        = m.installed_libraries
      ∧ (m.import_data bytes contents paths fileNames document_type units overlap).snd.environment_variables
        = m.environment_variables)
    ∧ ((m.retrieve_all_documents).snd.installed_libraries = m.installed_libraries
      ∧ (m.retrieve_all_documents).snd.environment_variables = m.environment_variables)
    ∧ ((m.retrieve_document doc_id).snd.installed_libraries = m.installed_libraries
      ∧ (m.retrieve_document doc_id).snd.environment_variables = m.environment_variables)
    ∧ ((m.get_schemas).snd.installed_libraries = m.installed_libraries
      ∧ (m.get_schemas).snd.environment_variables = m.environment_variables)
    ∧ (m.reset.installed_libraries = m.installed_libraries
      ∧ m.reset.environment_variables = m.environment_variables) := by
  refine ⟨⟨?_, ?_⟩, ⟨rfl, rfl⟩, ⟨rfl, rfl⟩, ⟨rfl, rfl⟩, rfl, rfl⟩
  · cases hok : (m.embedder_manager.embed
        (m.chunker_manager.chunk
          (m.reader_manager.load bytes contents paths fileNames document_type)
          units overlap)).ok <;>
      simp [VerbaManager.import_data, hok]
  · cases hok : (m.embedder_manager.embed
        (m.chunker_manager.chunk
          (m.reader_manager.load bytes contents paths fileNames document_type)
          units overlap)).ok <;>
      simp [VerbaManager.import_data, hok]

/-- C10: when VERBA_URL is unset and the openai import raised, the embedded
branch of `setup_client` evaluates the unbound name `openai` and raises
instead of returning a client. -/
theorem C10_embedded_branch_requires_openai (env : String → String)
    (h : env "VERBA_URL" = "") :
    setup_client false env = Except.error SetupErr.nameError := by
  simp [setup_client, openai_module_state, h]

/-- Witness for C10 at the empty environment. -/
theorem C10_embedded_branch_requires_openai_witness :
    (fun (_ : String) => "") "VERBA_URL" = ""
    ∧ setup_client false (fun _ => "") = Except.error SetupErr.nameError :=
  ⟨rfl, C10_embedded_branch_requires_openai (fun _ => "") rfl⟩
